import Mathlib

/-!
Shallow embedding of the notification subsystem of the Crypto-Orchestrator
repository (`server_fastapi/services/notification_service.py`).

Modelling conventions:
* Instants (`datetime`) are modelled as natural numbers; the ISO-string
  round-trip in the source is an order isomorphism on instants, so comparisons
  on `Nat` are faithful.  Each operation that reads the wall clock takes an
  explicit `now` argument; the (at most three) clock reads inside one
  `create_notification` call are modelled as a single instant.
* The Python dicts `self.notifications` / `self.listeners` (user id → list)
  are modelled as total functions `Nat → List _` defaulting to `[]`; the
  source's `dict.get(user_id, [])` / "insert empty list on first use" idioms
  are observationally equivalent to this total-function view.
* Notification records store `level`, `category`, `priority` as plain strings,
  exactly as the Python dict does (`category.value if category else 'system'`,
  `priority.value`).
* Listener callbacks are coroutine callbacks (the supported usage: the
  dispatcher hands them to exception-collecting concurrent execution, which
  awaits them and swallows their exceptions).  A listener is modelled by its
  observable behaviour `Notification → Except String Unit`; dispatch returns
  the trace of invocations together with each outcome, and the outcomes are
  discarded, mirroring `asyncio.gather(..., return_exceptions=True)`.
* Python's `sorted` (a stable sort by key) is modelled by `List.mergeSort` on
  the boolean relation induced by the source's sort key.
-/

inductive NotificationPriority where
  | low
  | medium
  | high
  | urgent
deriving DecidableEq, Repr

def NotificationPriority.value : NotificationPriority → String
  | .low => "low"
  | .medium => "medium"
  | .high => "high"
  | .urgent => "urgent"

inductive NotificationCategory where
  | trade
  | bot
  | market
  | system
  | portfolio
  | risk
deriving DecidableEq, Repr

def NotificationCategory.value : NotificationCategory → String
  | .trade => "trade"
  | .bot => "bot"
  | .market => "market"
  | .system => "system"
  | .portfolio => "portfolio"
  | .risk => "risk"

/-- One notification record, with the same fields as the dict built by
`create_notification` in the source. The open `data` payload is modelled as a
string-keyed association list. -/
structure Notification where
  id : Nat
  user_id : Nat
  title : String
  message : String
  level : String
  category : String
  priority : String
  data : List (String × String)
  timestamp : Nat
  created_at : Nat
  read : Bool
  read_at : Option Nat
  expires_at : Option Nat
deriving DecidableEq, Repr

/-- A registered listener callback: an identity (Python compares callbacks by
object identity) together with its observable behaviour on a notification. -/
structure Listener where
  lid : Nat
  run : Notification → Except String Unit

/-- The mutable state of a `NotificationService` instance. -/
structure ServiceState where
  notifications : Nat → List Notification
  notification_id_counter : Nat
  listeners : Nat → List Listener

/-- `NotificationService.__init__`: empty store, counter starts at 1. -/
def initState : ServiceState :=
  { notifications := fun _ => []
    notification_id_counter := 1
    listeners := fun _ => [] }

/-- Point update of a total-function map (writing `dict[k] = v`). -/
def updateFn {α : Type} (m : Nat → α) (k : Nat) (v : α) : Nat → α :=
  fun j => if j = k then v else m j

/-- `level_titles.get(level, 'Notification')` in `_generate_title`. -/
def level_title_get (level : String) : String :=
  if level = "info" then "Information"
  else if level = "warning" then "Warning"
  else if level = "error" then "Error"
  else if level = "success" then "Success"
  else "Notification"

/-- `category_titles.get(category, 'Notification')` in `_generate_title`;
the dict maps every enum member, so only `None` falls back. -/
def category_title_get (category : Option NotificationCategory) : String :=
  match category with
  | some .trade => "Trade"
  | some .bot => "Bot"
  | some .market => "Market"
  | some .system => "System"
  | some .portfolio => "Portfolio"
  | some .risk => "Risk"
  | none => "Notification"

/-- `NotificationService._generate_title`. -/
def generate_title (level : String) (category : Option NotificationCategory) : String :=
  category_title_get category ++ " " ++ level_title_get level

/-- The keep-predicate of `_cleanup_expired_notifications`:
`n.get('expires_at') is None or fromisoformat(n['expires_at']) > current_time`. -/
def not_expired (now : Nat) (n : Notification) : Bool :=
  match n.expires_at with
  | none => true
  | some e => now < e

/-- `NotificationService._cleanup_expired_notifications`. -/
def cleanup_expired_notifications (s : ServiceState) (user_id now : Nat) : ServiceState :=
  { s with notifications :=
      (updateFn s.notifications user_id
        ((s.notifications user_id).filter (not_expired now))) }

/-- `NotificationService._notify_listeners`: builds one invocation per
registered callback and awaits them with exception collection; the returned
trace records each callback, the payload it received, and its outcome.
Outcomes are discarded by the caller (`return_exceptions=True`). -/
def notify_listeners (s : ServiceState) (user_id : Nat) (notification : Notification) :
    List (Listener × Notification × Except String Unit) :=
  (s.listeners user_id).map (fun cb => (cb, notification, cb.run notification))

/-- `NotificationService.create_notification`.  Python argument defaults:
`level='info'`, `title=None` (and `''` is falsy, so `title or ...` also
replaces an empty title), `category=None`, `priority=MEDIUM`, `data=None`
(stored as `{}`), `expires_at=None`.  Returns the created record, the new
state, and the listener-invocation trace. -/
def create_notification (s : ServiceState) (user_id : Nat) (message : String)
    (level : String) (title : Option String) (category : Option NotificationCategory)
    (priority : NotificationPriority) (data : List (String × String))
    (expires_at : Option Nat) (now : Nat) :
    Notification × ServiceState × List (Listener × Notification × Except String Unit) :=
  let notification_id := s.notification_id_counter
  let s1 : ServiceState := { s with notification_id_counter := s.notification_id_counter + 1 }
  let notification : Notification :=
    { id := notification_id
      user_id := user_id
      title :=
        match title with
        | some t => if t = "" then generate_title level category else t
        | none => generate_title level category
      message := message
      level := level
      category :=
        match category with
        | some c => c.value
        | none => "system"
      priority := priority.value
      data := data
      timestamp := now
      created_at := now
      read := false
      read_at := none
      expires_at := expires_at }
  let s2 := cleanup_expired_notifications s1 user_id now
  let s3 : ServiceState :=
    { s2 with notifications :=
        updateFn s2.notifications user_id (s2.notifications user_id ++ [notification]) }
  (notification, s3, notify_listeners s3 user_id notification)

/-- `priority_order.get(p, 1)` where `priority_order = {p.value: i for i, p in
enumerate(NotificationPriority)}` (low=0, medium=1, high=2, urgent=3). -/
def priority_order_get (p : String) : Nat :=
  if p = "low" then 0
  else if p = "medium" then 1
  else if p = "high" then 2
  else if p = "urgent" then 3
  else 1

/-- The comparison induced by the source's sort key
`(-priority_order.get(priority, 1), -timestamp)` under ascending
lexicographic tuple order. -/
def sort_le (a b : Notification) : Bool :=
  (priority_order_get b.priority < priority_order_get a.priority) ||
    (priority_order_get a.priority = priority_order_get b.priority &&
      b.timestamp ≤ a.timestamp)

/-- `NotificationService.get_recent_notifications`.  Note that the source
guards the priority filter with `if priority_filter:`, which is false both
for `None` and for an empty list. -/
def get_recent_notifications (s : ServiceState) (user_id limit : Nat)
    (category : Option NotificationCategory) (unread_only : Bool)
    (priority_filter : Option (List NotificationPriority)) : List Notification :=
  let user_notifications := s.notifications user_id
  let filtered1 :=
    match category with
    | some c => user_notifications.filter (fun (n : Notification) => n.category = c.value)
    | none => user_notifications
  let filtered2 := if unread_only then filtered1.filter (fun (n : Notification) => !n.read) else filtered1
  let filtered3 :=
    match priority_filter with
    | some ps =>
        if ps = [] then filtered2
        else filtered2.filter (fun (n : Notification) =>
          n.priority ∈ ps.map NotificationPriority.value)
    | none => filtered2
  (filtered3.mergeSort sort_le).take limit

/-- The in-place update the `mark_as_read` loop applies to the first
notification whose id matches: set `read`/`read_at` if currently unread,
return `true`; leave the list unchanged and return `false` when no id
matches. -/
def mark_first (notification_id now : Nat) : List Notification → List Notification × Bool
  | [] => ([], false)
  | n :: rest =>
    if n.id = notification_id then
      if n.read then (n :: rest, true)
      else ({ n with read := true, read_at := some now } :: rest, true)
    else
      let r := mark_first notification_id now rest
      (n :: r.1, r.2)

/-- `NotificationService.mark_as_read`. -/
def mark_as_read (s : ServiceState) (user_id notification_id now : Nat) :
    ServiceState × Bool :=
  let r := mark_first notification_id now (s.notifications user_id)
  ({ s with notifications := updateFn s.notifications user_id r.1 }, r.2)

/-- The per-notification condition of `mark_all_as_read`. -/
def mark_all_cond (category : Option NotificationCategory) (n : Notification) : Bool :=
  !n.read &&
    (match category with
     | none => true
     | some c => n.category = c.value)

/-- `NotificationService.mark_all_as_read`. -/
def mark_all_as_read (s : ServiceState) (user_id : Nat)
    (category : Option NotificationCategory) (now : Nat) : ServiceState × Nat :=
  let l := s.notifications user_id
  let upd := l.map (fun n =>
    if mark_all_cond category n then { n with read := true, read_at := some now } else n)
  ({ s with notifications := updateFn s.notifications user_id upd },
    (l.filter (mark_all_cond category)).length)

/-- `NotificationService.delete_notification`. -/
def delete_notification (s : ServiceState) (user_id notification_id : Nat) :
    ServiceState × Bool :=
  let l := s.notifications user_id
  let l2 := l.filter (fun n => n.id ≠ notification_id)
  ({ s with notifications := updateFn s.notifications user_id l2 },
    decide (l2.length < l.length))

/-- `NotificationService.get_unread_count`; the priority filter has the same
`if priority_filter:` falsiness as in `get_recent_notifications`. -/
def get_unread_count (s : ServiceState) (user_id : Nat)
    (category : Option NotificationCategory)
    (priority_filter : Option (List NotificationPriority)) : Nat :=
  let l := s.notifications user_id
  let unread1 := l.filter (fun (n : Notification) => !n.read)
  let unread2 :=
    match category with
    | some c => unread1.filter (fun (n : Notification) => n.category = c.value)
    | none => unread1
  let unread3 :=
    match priority_filter with
    | some ps =>
        if ps = [] then unread2
        else unread2.filter (fun (n : Notification) =>
          n.priority ∈ ps.map NotificationPriority.value)
    | none => unread2
  unread3.length

/-- Result of `get_notification_stats`; the category/priority count dicts are
modelled as total count functions (a key absent from the dict has count 0). -/
structure NotificationStats where
  total : Nat
  unread : Nat
  categories : String → Nat
  priorities : String → Nat

/-- `NotificationService.get_notification_stats`. -/
def get_notification_stats (s : ServiceState) (user_id : Nat) : NotificationStats :=
  let l := s.notifications user_id
  { total := l.length
    unread := (l.filter (fun (n : Notification) => !n.read)).length
    categories := fun c => (l.filter (fun n => n.category = c)).length
    priorities := fun p => (l.filter (fun n => n.priority = p)).length }

/-- `NotificationService.broadcast_notification`: one `create_notification`
per user id (no `expires_at` argument, so each record gets `expires_at =
None`), gathered concurrently.  Each spawned coroutine performs all of its
store mutations before its first true suspension point (the listener gather),
so the store effects equal those of running the creations sequentially in
list order, which is how the gather is modelled here. -/
def broadcast_notification (s : ServiceState) (user_ids : List Nat) (message : String)
    (level : String) (title : Option String) (category : Option NotificationCategory)
    (priority : NotificationPriority) (data : List (String × String)) (now : Nat) :
    ServiceState × List Notification :=
  match user_ids with
  | [] => (s, [])
  | u :: rest =>
    let r := create_notification s u message level title category priority data none now
    let r2 := broadcast_notification r.2.1 rest message level title category priority data now
    (r2.1, r.1 :: r2.2)

/-- `NotificationService.add_listener`. -/
def add_listener (s : ServiceState) (user_id : Nat) (cb : Listener) : ServiceState :=
  { s with listeners := updateFn s.listeners user_id (s.listeners user_id ++ [cb]) }

/-- One store-mutating call, used to describe whole process histories. -/
inductive Op where
  | createOp (user_id : Nat) (message : String) (level : String) (title : Option String)
      (category : Option NotificationCategory) (priority : NotificationPriority)
      (data : List (String × String)) (expires_at : Option Nat) (now : Nat)
  | deleteOp (user_id notification_id : Nat)
  | markReadOp (user_id notification_id now : Nat)
  | markAllReadOp (user_id : Nat) (category : Option NotificationCategory) (now : Nat)

/-- State transition of one call. -/
def execOp (s : ServiceState) : Op → ServiceState
  | .createOp u m lv t c p d e now => (create_notification s u m lv t c p d e now).2.1
  | .deleteOp u nid => (delete_notification s u nid).1
  | .markReadOp u nid now => (mark_as_read s u nid now).1
  | .markAllReadOp u c now => (mark_all_as_read s u c now).1

/-- Run a history of calls. -/
def runOps (s : ServiceState) : List Op → ServiceState
  | [] => s
  | op :: ops => runOps (execOp s op) ops

/-- The ids returned by the `create` calls of a history, in call order. -/
def createdIds (s : ServiceState) : List Op → List Nat
  | [] => []
  | .createOp u m lv t c p d e now :: ops =>
      (create_notification s u m lv t c p d e now).1.id ::
        createdIds (create_notification s u m lv t c p d e now).2.1 ops
  | op :: ops => createdIds (execOp s op) ops

/-- A state of the store arising in some process history (the store-mutating
calls; listener registration does not touch collections or the counter). -/
def Reachable (s : ServiceState) : Prop :=
  ∃ ops : List Op, runOps initState ops = s

/-! ### Helper lemmas -/

lemma updateFn_same {α : Type} (m : Nat → α) (k : Nat) (v : α) :
    updateFn m k v k = v := by
  simp [updateFn]

lemma updateFn_other {α : Type} (m : Nat → α) (k j : Nat) (v : α) (h : j ≠ k) :
    updateFn m k v j = m j := by
  simp [updateFn, h]

lemma updateFn_self {α : Type} (m : Nat → α) (k : Nat) :
    updateFn m k (m k) = m := by
  funext j
  by_cases h : j = k
  · subst h; simp [updateFn]
  · simp [updateFn, h]

/-- Equality of all fields of a notification except `read` and `read_at`. -/
def same_except_read (a b : Notification) : Prop :=
  b.id = a.id ∧ b.user_id = a.user_id ∧ b.title = a.title ∧ b.message = a.message ∧
  b.level = a.level ∧ b.category = a.category ∧ b.priority = a.priority ∧
  b.data = a.data ∧ b.timestamp = a.timestamp ∧ b.created_at = a.created_at ∧
  b.expires_at = a.expires_at

lemma same_except_read_refl (a : Notification) : same_except_read a a :=
  ⟨rfl, rfl, rfl, rfl, rfl, rfl, rfl, rfl, rfl, rfl, rfl⟩

lemma mark_first_cons_found_read (nid now : Nat) (n : Notification)
    (rest : List Notification) (h : n.id = nid) (hr : n.read = true) :
    mark_first nid now (n :: rest) = (n :: rest, true) := by
  simp [mark_first, h, hr]

lemma mark_first_cons_found_unread (nid now : Nat) (n : Notification)
    (rest : List Notification) (h : n.id = nid) (hr : n.read = false) :
    mark_first nid now (n :: rest) =
      ({ n with read := true, read_at := some now } :: rest, true) := by
  simp [mark_first, h, hr]

lemma mark_first_cons_other (nid now : Nat) (n : Notification)
    (rest : List Notification) (h : ¬n.id = nid) :
    mark_first nid now (n :: rest) =
      (n :: (mark_first nid now rest).1, (mark_first nid now rest).2) := by
  simp [mark_first, h]

lemma forall₂_mark_refl (nid : Nat) (l : List Notification) :
    List.Forall₂ (fun a b => same_except_read a b ∧ (a.id ≠ nid → b = a)) l l :=
  List.forall₂_same.mpr fun m _ => ⟨same_except_read_refl m, fun _ => rfl⟩

lemma mark_first_forall₂ (nid now : Nat) (l : List Notification) :
    List.Forall₂ (fun a b => same_except_read a b ∧ (a.id ≠ nid → b = a))
      l (mark_first nid now l).1 := by
  induction l with
  | nil => exact List.Forall₂.nil
  | cons n rest ih =>
    by_cases h : n.id = nid
    · by_cases hr : n.read
      · rw [mark_first_cons_found_read nid now n rest h hr]
        exact List.Forall₂.cons ⟨same_except_read_refl n, fun _ => rfl⟩
          (forall₂_mark_refl nid rest)
      · rw [mark_first_cons_found_unread nid now n rest h (Bool.not_eq_true _ |>.mp hr)]
        exact List.Forall₂.cons
          ⟨⟨rfl, rfl, rfl, rfl, rfl, rfl, rfl, rfl, rfl, rfl, rfl⟩,
            fun hne => absurd h hne⟩
          (forall₂_mark_refl nid rest)
    · rw [mark_first_cons_other nid now n rest h]
      exact List.Forall₂.cons ⟨same_except_read_refl n, fun _ => rfl⟩ ih

lemma mark_first_not_mem (nid now : Nat) (l : List Notification)
    (h : ∀ y ∈ l, y.id ≠ nid) : mark_first nid now l = (l, false) := by
  induction l with
  | nil => rfl
  | cons n rest ih =>
    have hn : n.id ≠ nid := h n (List.mem_cons_self n rest)
    have ih2 := ih fun y hy => h y (List.mem_cons_of_mem n hy)
    rw [mark_first_cons_other nid now n rest hn, ih2]

lemma mark_first_found (nid now : Nat) (l1 l2 : List Notification) (x : Notification)
    (h1 : ∀ y ∈ l1, y.id ≠ nid) (hx : x.id = nid) :
    mark_first nid now (l1 ++ x :: l2) =
      (l1 ++ (if x.read then x else { x with read := true, read_at := some now }) :: l2,
        true) := by
  induction l1 with
  | nil =>
    by_cases hr : x.read
    · rw [if_pos hr]
      exact mark_first_cons_found_read nid now x l2 hx hr
    · rw [if_neg hr]
      exact mark_first_cons_found_unread nid now x l2 hx (Bool.not_eq_true _ |>.mp hr)
  | cons n rest ih =>
    have hn : n.id ≠ nid := h1 n (List.mem_cons_self n rest)
    have ih2 := ih fun y hy => h1 y (List.mem_cons_of_mem n hy)
    show mark_first nid now (n :: (rest ++ x :: l2)) = _
    rw [mark_first_cons_other nid now n (rest ++ x :: l2) hn, ih2]
    rfl

lemma mem_map_id_decompose (nid : Nat) (l : List Notification)
    (h : nid ∈ l.map Notification.id) :
    ∃ l1 x l2, l = l1 ++ x :: l2 ∧ (∀ y ∈ l1, y.id ≠ nid) ∧ x.id = nid := by
  induction l with
  | nil => simp at h
  | cons n rest ih =>
    by_cases hn : n.id = nid
    · exact ⟨[], n, rest, rfl, by simp, hn⟩
    · have h2 : nid ∈ rest.map Notification.id := by
        rcases List.mem_map.mp h with ⟨y, hy, hyid⟩
        rcases List.mem_cons.mp hy with hh | hh
        · exact absurd (hh ▸ hyid) hn
        · exact List.mem_map.mpr ⟨y, hh, hyid⟩
      rcases ih h2 with ⟨l1, x, l2, heq, hl1, hx⟩
      refine ⟨n :: l1, x, l2, by rw [heq]; rfl, ?_, hx⟩
      intro y hy
      rcases List.mem_cons.mp hy with hh | hh
      · exact hh ▸ hn
      · exact hl1 y hh

lemma mark_as_read_eq (s : ServiceState) (u n t : Nat) :
    mark_as_read s u n t =
      ({ s with notifications :=
          updateFn s.notifications u (mark_first n t (s.notifications u)).1 },
        (mark_first n t (s.notifications u)).2) := rfl

lemma mark_as_read_coll (s : ServiceState) (u n t : Nat) :
    (mark_as_read s u n t).1.notifications u =
      (mark_first n t (s.notifications u)).1 :=
  updateFn_same _ _ _

lemma mark_as_read_found_true (s : ServiceState) (u n t : Nat)
    (h1 : (mark_first n t (s.notifications u)).2 = true) :
    (mark_as_read s u n t).2 = true := h1

lemma mark_as_read_unchanged (s : ServiceState) (u m t : Nat)
    (h : ∀ y ∈ s.notifications u, y.id ≠ m) : mark_as_read s u m t = (s, false) := by
  rw [mark_as_read_eq, mark_first_not_mem m t (s.notifications u) h, updateFn_self]

/-! ### Claim theorems -/

/-- C9: when both `title` and `category` are omitted, the stored `category`
field is `"system"` but the derived title uses the `'Notification'` category
fallback (e.g. `"Notification Information"` for level `info`), not
`"System <LevelTitle>"`. -/
theorem C9_default_title_fallback (s : ServiceState) (u : Nat) (message level : String)
    (priority : NotificationPriority) (data : List (String × String))
    (expires_at : Option Nat) (now : Nat) :
    ((create_notification s u message level none none priority data expires_at now).1.category
      = "system") ∧
    ((create_notification s u message level none none priority data expires_at now).1.title
      = "Notification" ++ " " ++ level_title_get level) ∧
    ((create_notification s u message level none none priority data expires_at now).1.title
      ≠ "System" ++ " " ++ level_title_get level) := by
  refine ⟨rfl, rfl, ?_⟩
  intro h
  have htitle :
      (create_notification s u message level none none priority data expires_at now).1.title
        = "Notification" ++ " " ++ level_title_get level := rfl
  rw [htitle] at h
  have h2 := congrArg String.length h
  simp only [String.length_append] at h2
  have e1 : ("Notification" : String).length = 12 := by decide
  have e2 : ("System" : String).length = 6 := by decide
  rw [e1, e2] at h2
  omega

/-- C10: `mark_as_read` modifies at most the `read`/`read_at` fields of
notifications with the given id in the given user's collection; every other
field of every notification, every other user's collection, the listener
registrations and the id counter are unchanged. -/
theorem C10_mark_read_modifies_only_read_fields (s : ServiceState) (u n t : Nat) :
    ((mark_as_read s u n t).1.notification_id_counter = s.notification_id_counter) ∧
    ((mark_as_read s u n t).1.listeners = s.listeners) ∧
    (∀ v, v ≠ u → (mark_as_read s u n t).1.notifications v = s.notifications v) ∧
    List.Forall₂ (fun a b => same_except_read a b ∧ (a.id ≠ n → b = a))
      (s.notifications u) ((mark_as_read s u n t).1.notifications u) := by
  refine ⟨rfl, rfl, ?_, ?_⟩
  · intro v hv
    exact updateFn_other _ _ _ _ hv
  · rw [mark_as_read_coll]
    exact mark_first_forall₂ n t (s.notifications u)

/-- C6: for an id present in the user's collection, `mark_as_read` returns
`true` whether or not the notification was already read; the first call on an
unread notification sets `read := true` and `read_at := now`; an immediately
repeated call changes nothing (in particular `read_at` keeps its value) and
still returns `true`; for an absent id it returns `false` and the store is
unchanged. -/
theorem C6_mark_read_idempotent (s : ServiceState) (u n t1 t2 : Nat)
    (h : n ∈ (s.notifications u).map Notification.id) :
    ((mark_as_read s u n t1).2 = true) ∧
    (mark_as_read (mark_as_read s u n t1).1 u n t2 = ((mark_as_read s u n t1).1, true)) ∧
    (∃ l1 x l2, s.notifications u = l1 ++ x :: l2 ∧ (∀ y ∈ l1, y.id ≠ n) ∧ x.id = n ∧
      (mark_as_read s u n t1).1.notifications u =
        l1 ++ (if x.read then x else { x with read := true, read_at := some t1 }) :: l2 ∧
      (x.read = false →
        (if x.read then x else { x with read := true, read_at := some t1 }) =
          { x with read := true, read_at := some t1 })) ∧
    (∀ m, m ∉ (s.notifications u).map Notification.id →
      mark_as_read s u m t1 = (s, false)) := by
  rcases mem_map_id_decompose n (s.notifications u) h with ⟨l1, x, l2, heq, hl1, hx⟩
  have hfirst := mark_first_found n t1 l1 l2 x hl1 hx
  have hcoll1 : (mark_as_read s u n t1).1.notifications u =
      l1 ++ (if x.read then x else { x with read := true, read_at := some t1 }) :: l2 := by
    rw [mark_as_read_coll, heq, hfirst]
  refine ⟨?_, ?_, ⟨l1, x, l2, heq, hl1, hx, hcoll1, ?_⟩, ?_⟩
  · show (mark_first n t1 (s.notifications u)).2 = true
    rw [heq, hfirst]
  · have hxr : (if x.read then x else { x with read := true, read_at := some t1 }).read
        = true := by
      by_cases hr : x.read
      · rw [if_pos hr]; exact hr
      · rw [if_neg hr]
    have hxid : (if x.read then x else { x with read := true, read_at := some t1 }).id
        = n := by
      by_cases hr : x.read
      · rw [if_pos hr]; exact hx
      · rw [if_neg hr]; exact hx
    have hsecond : mark_first n t2
        (l1 ++ (if x.read then x else { x with read := true, read_at := some t1 }) :: l2) =
        (l1 ++ (if x.read then x else { x with read := true, read_at := some t1 }) :: l2,
          true) := by
      have h0 := mark_first_found n t2 l1 l2
        (if x.read then x else { x with read := true, read_at := some t1 }) hl1 hxid
      rw [if_pos hxr] at h0
      exact h0
    have harg : (mark_first n t2 ((mark_as_read s u n t1).1.notifications u)).1 =
        (mark_as_read s u n t1).1.notifications u := by
      rw [hcoll1, hsecond]
    have hb : (mark_first n t2 ((mark_as_read s u n t1).1.notifications u)).2 = true := by
      rw [hcoll1, hsecond]
    rw [mark_as_read_eq (mark_as_read s u n t1).1 u n t2, harg, updateFn_self, hb]
  · intro hr
    rw [if_neg (by rw [hr]; exact Bool.false_ne_true)]
  · intro m hm
    refine mark_as_read_unchanged s u m t1 ?_
    intro y hy hid
    exact hm (List.mem_map.mpr ⟨y, hy, hid⟩)

/-- C6 witness: a concrete store holding notification 1 for user 1. -/
theorem C6_mark_read_idempotent_witness :
    (1 ∈ (((create_notification initState 1 "hello" "info" none none
        NotificationPriority.medium [] none 0).2.1).notifications 1).map Notification.id) ∧
    (((mark_as_read ((create_notification initState 1 "hello" "info" none none
        NotificationPriority.medium [] none 0).2.1) 1 1 5).2 = true) ∧
    (mark_as_read (mark_as_read ((create_notification initState 1 "hello" "info" none none
        NotificationPriority.medium [] none 0).2.1) 1 1 5).1 1 1 9 =
      ((mark_as_read ((create_notification initState 1 "hello" "info" none none
        NotificationPriority.medium [] none 0).2.1) 1 1 5).1, true)) ∧
    (∃ l1 x l2, (((create_notification initState 1 "hello" "info" none none
        NotificationPriority.medium [] none 0).2.1).notifications 1) = l1 ++ x :: l2 ∧
      (∀ y ∈ l1, y.id ≠ 1) ∧ x.id = 1 ∧
      (mark_as_read ((create_notification initState 1 "hello" "info" none none
        NotificationPriority.medium [] none 0).2.1) 1 1 5).1.notifications 1 =
        l1 ++ (if x.read then x else { x with read := true, read_at := some 5 }) :: l2 ∧
      (x.read = false →
        (if x.read then x else { x with read := true, read_at := some 5 }) =
          { x with read := true, read_at := some 5 })) ∧
    (∀ m, m ∉ (((create_notification initState 1 "hello" "info" none none
        NotificationPriority.medium [] none 0).2.1).notifications 1).map Notification.id →
      mark_as_read ((create_notification initState 1 "hello" "info" none none
        NotificationPriority.medium [] none 0).2.1) 1 m 5 =
        ((create_notification initState 1 "hello" "info" none none
          NotificationPriority.medium [] none 0).2.1, false))) :=
  ⟨by decide, C6_mark_read_idempotent _ 1 1 5 9 (by decide)⟩

lemma create_counter (s : ServiceState) (u : Nat) (m lv : String) (t : Option String)
    (c : Option NotificationCategory) (p : NotificationPriority)
    (d : List (String × String)) (e : Option Nat) (now : Nat) :
    (create_notification s u m lv t c p d e now).2.1.notification_id_counter =
      s.notification_id_counter + 1 := rfl

lemma create_id (s : ServiceState) (u : Nat) (m lv : String) (t : Option String)
    (c : Option NotificationCategory) (p : NotificationPriority)
    (d : List (String × String)) (e : Option Nat) (now : Nat) :
    (create_notification s u m lv t c p d e now).1.id = s.notification_id_counter := rfl

lemma create_coll (s : ServiceState) (u : Nat) (m lv : String) (t : Option String)
    (c : Option NotificationCategory) (p : NotificationPriority)
    (d : List (String × String)) (e : Option Nat) (now : Nat) :
    (create_notification s u m lv t c p d e now).2.1.notifications u =
      (s.notifications u).filter (not_expired now) ++
        [(create_notification s u m lv t c p d e now).1] := by
  simp only [create_notification, cleanup_expired_notifications, updateFn_same]

lemma create_coll_other (s : ServiceState) (u : Nat) (m lv : String) (t : Option String)
    (c : Option NotificationCategory) (p : NotificationPriority)
    (d : List (String × String)) (e : Option Nat) (now : Nat) (v : Nat) (hv : v ≠ u) :
    (create_notification s u m lv t c p d e now).2.1.notifications v =
      s.notifications v := by
  show updateFn _ u _ v = _
  rw [updateFn_other _ _ _ _ hv]
  exact updateFn_other _ _ _ _ hv

lemma mark_all_coll_other (s : ServiceState) (u : Nat)
    (c : Option NotificationCategory) (now : Nat) (v : Nat) (hv : v ≠ u) :
    (mark_all_as_read s u c now).1.notifications v = s.notifications v :=
  updateFn_other _ _ _ _ hv

lemma delete_coll_other (s : ServiceState) (u nid : Nat) (v : Nat) (hv : v ≠ u) :
    (delete_notification s u nid).1.notifications v = s.notifications v :=
  updateFn_other _ _ _ _ hv

lemma execOp_counter_le (s : ServiceState) (op : Op) :
    s.notification_id_counter ≤ (execOp s op).notification_id_counter := by
  cases op with
  | createOp u m lv t c p d e now =>
    rw [show execOp s (.createOp u m lv t c p d e now) =
      (create_notification s u m lv t c p d e now).2.1 from rfl, create_counter]
    omega
  | deleteOp u nid => exact le_refl _
  | markReadOp u nid now => exact le_refl _
  | markAllReadOp u c now => exact le_refl _

lemma createdIds_lower (ops : List Op) :
    ∀ s : ServiceState, ∀ i ∈ createdIds s ops, s.notification_id_counter ≤ i := by
  induction ops with
  | nil =>
    intro s i hi
    simp [createdIds] at hi
  | cons op ops ih =>
    intro s i hi
    cases op with
    | createOp u m lv t c p d e now =>
      rw [show createdIds s (.createOp u m lv t c p d e now :: ops) =
        (create_notification s u m lv t c p d e now).1.id ::
          createdIds (create_notification s u m lv t c p d e now).2.1 ops from rfl] at hi
      rcases List.mem_cons.mp hi with hh | hh
      · rw [hh, create_id]
      · have := ih _ i hh
        rw [create_counter] at this
        omega
    | deleteOp u nid =>
      exact le_trans (execOp_counter_le s (.deleteOp u nid)) (ih _ i hi)
    | markReadOp u nid now =>
      exact le_trans (execOp_counter_le s (.markReadOp u nid now)) (ih _ i hi)
    | markAllReadOp u c now =>
      exact le_trans (execOp_counter_le s (.markAllReadOp u c now)) (ih _ i hi)

/-- C4: across any history of store operations (creations for any users with
arbitrary interleaved deletions and read-markings), the ids returned by the
successive `create` calls are strictly increasing, hence never reused — also
after the notification bearing an id has been deleted. -/
theorem C4_monotonic_ids (s : ServiceState) (ops : List Op) :
    List.Pairwise (fun a b => a < b) (createdIds s ops) := by
  induction ops generalizing s with
  | nil => exact List.Pairwise.nil
  | cons op ops ih =>
    cases op with
    | createOp u m lv t c p d e now =>
      rw [show createdIds s (.createOp u m lv t c p d e now :: ops) =
        (create_notification s u m lv t c p d e now).1.id ::
          createdIds (create_notification s u m lv t c p d e now).2.1 ops from rfl]
      refine List.Pairwise.cons ?_ (ih _)
      intro j hj
      have hlow := createdIds_lower ops _ j hj
      rw [create_counter] at hlow
      rw [create_id]
      omega
    | deleteOp u nid => exact ih _
    | markReadOp u nid now => exact ih _
    | markAllReadOp u c now => exact ih _

/-- C1 counterexample: `create` called with an empty message and an
unrecognized level value does not fail and does not leave the store
unchanged — the notification is appended and the id counter advances, where
the claim requires a `ValidationError` with no side effect. -/
theorem C1_counterexample :
    ((create_notification initState 1 "" "bogus" none none NotificationPriority.medium []
        none 0).2.1.notification_id_counter = 2) ∧
    (((create_notification initState 1 "" "bogus" none none NotificationPriority.medium []
        none 0).2.1.notifications 1).length = 1) ∧
    ((create_notification initState 1 "" "bogus" none none NotificationPriority.medium []
        none 0).1.message = "") ∧
    ((create_notification initState 1 "" "bogus" none none NotificationPriority.medium []
        none 0).1.level = "bogus") := by
  refine ⟨rfl, ?_, rfl, rfl⟩
  rfl

/-- C1 (amended): `create` performs no input validation and cannot fail: for
every input — including an empty message and unrecognized level strings — it
assigns the next id, advances the counter, appends the notification to the
user's collection (after pruning), stores the arguments verbatim, and invokes
the listeners. -/
theorem C1_create_never_validates (s : ServiceState) (u : Nat) (message level : String)
    (title : Option String) (category : Option NotificationCategory)
    (priority : NotificationPriority) (data : List (String × String))
    (expires_at : Option Nat) (now : Nat) :
    ((create_notification s u message level title category priority data expires_at
        now).2.1.notification_id_counter = s.notification_id_counter + 1) ∧
    ((create_notification s u message level title category priority data expires_at
        now).2.1.notifications u =
      (s.notifications u).filter (not_expired now) ++
        [(create_notification s u message level title category priority data expires_at
          now).1]) ∧
    ((create_notification s u message level title category priority data expires_at
        now).1.message = message) ∧
    ((create_notification s u message level title category priority data expires_at
        now).1.level = level) ∧
    ((create_notification s u message level title category priority data expires_at
        now).1.id = s.notification_id_counter) ∧
    ((create_notification s u message level title category priority data expires_at
        now).2.2 =
      (s.listeners u).map (fun cb =>
        (cb, (create_notification s u message level title category priority data expires_at
            now).1,
          cb.run (create_notification s u message level title category priority data
            expires_at now).1))) :=
  ⟨rfl, create_coll s u message level title category priority data expires_at now,
    rfl, rfl, rfl, rfl⟩

/-- C8: `create` invokes every registered listener of the user exactly once
with the very notification record it returns, recording each outcome; a
failing outcome is collected like any other, so the remaining listeners are
still invoked; and neither the created record, nor the stored collections,
depend on the listeners' behaviour in any way — the notification stays
appended regardless. -/
theorem C8_listener_fanout_isolated (s : ServiceState) (u : Nat) (message level : String)
    (title : Option String) (category : Option NotificationCategory)
    (priority : NotificationPriority) (data : List (String × String))
    (expires_at : Option Nat) (now : Nat) :
    ((create_notification s u message level title category priority data expires_at
        now).2.2 =
      (s.listeners u).map (fun cb =>
        (cb, (create_notification s u message level title category priority data expires_at
            now).1,
          cb.run (create_notification s u message level title category priority data
            expires_at now).1))) ∧
    ((create_notification s u message level title category priority data expires_at
        now).2.1.listeners = s.listeners) ∧
    ((create_notification s u message level title category priority data expires_at
        now).1 ∈
      (create_notification s u message level title category priority data expires_at
        now).2.1.notifications u) ∧
    (∀ L : Nat → List Listener,
      ((create_notification { s with listeners := L } u message level title category
          priority data expires_at now).1 =
        (create_notification s u message level title category priority data expires_at
          now).1) ∧
      ((create_notification { s with listeners := L } u message level title category
          priority data expires_at now).2.1.notifications =
        (create_notification s u message level title category priority data expires_at
          now).2.1.notifications)) := by
  refine ⟨rfl, rfl, ?_, fun L => ⟨rfl, rfl⟩⟩
  rw [create_coll]
  exact List.mem_append_right _ (List.mem_singleton.mpr rfl)

lemma create_preserves_nonexpiring (s : ServiceState) (u : Nat) (m lv : String)
    (t : Option String) (c : Option NotificationCategory) (p : NotificationPriority)
    (d : List (String × String)) (e : Option Nat) (now : Nat) (v : Nat)
    (n : Notification) (hn : n ∈ s.notifications v) (he : n.expires_at = none) :
    n ∈ (create_notification s u m lv t c p d e now).2.1.notifications v := by
  by_cases hv : v = u
  · subst hv
    rw [create_coll]
    exact List.mem_append_left _
      (List.mem_filter.mpr ⟨hn, by simp [not_expired, he]⟩)
  · rw [create_coll_other s u m lv t c p d e now v hv]
    exact hn

lemma broadcast_preserves_nonexpiring (user_ids : List Nat) :
    ∀ (s : ServiceState) (m lv : String) (t : Option String)
      (c : Option NotificationCategory) (p : NotificationPriority)
      (d : List (String × String)) (now v : Nat) (n : Notification),
      n ∈ s.notifications v → n.expires_at = none →
      n ∈ (broadcast_notification s user_ids m lv t c p d now).1.notifications v := by
  induction user_ids with
  | nil => intro s m lv t c p d now v n hn _; exact hn
  | cons u rest ih =>
    intro s m lv t c p d now v n hn he
    exact ih _ m lv t c p d now v n
      (create_preserves_nonexpiring s u m lv t c p d none now v n hn he) he

/-- C3: `broadcast` performs one `create` per listed user id (in the model the
creations cannot fail: listener exceptions are collected, never raised), and
after the whole broadcast every user id's created notification is present in
that user's stored collection — creations for different users do not disturb
one another. -/
theorem C3_broadcast_reaches_every_user (s : ServiceState) (user_ids : List Nat)
    (message level : String) (title : Option String)
    (category : Option NotificationCategory) (priority : NotificationPriority)
    (data : List (String × String)) (now : Nat) :
    List.Forall₂ (fun uid nn => nn.user_id = uid ∧ nn.message = message ∧
        nn ∈ (broadcast_notification s user_ids message level title category priority data
          now).1.notifications uid)
      user_ids
      (broadcast_notification s user_ids message level title category priority data
        now).2 := by
  induction user_ids generalizing s with
  | nil => exact List.Forall₂.nil
  | cons u rest ih =>
    refine List.Forall₂.cons ⟨rfl, rfl, ?_⟩ ?_
    · show (create_notification s u message level title category priority data none
          now).1 ∈
        (broadcast_notification
          (create_notification s u message level title category priority data none
            now).2.1 rest message level title category priority data now).1.notifications u
      apply broadcast_preserves_nonexpiring rest _ message level title category priority
        data now u _ _ rfl
      rw [create_coll]
      exact List.mem_append_right _ (List.mem_singleton.mpr rfl)
    · exact ih (create_notification s u message level title category priority data none
        now).2.1

/-- The id bookkeeping invariant of the store: every stored id is below the
counter, and distinct users never share a notification id. -/
def StoreInv (s : ServiceState) : Prop :=
  (∀ u, ∀ a ∈ s.notifications u, a.id < s.notification_id_counter) ∧
  (∀ u v, u ≠ v → ∀ a ∈ s.notifications u, ∀ b ∈ s.notifications v, a.id ≠ b.id)

lemma mark_first_map_id (nid now : Nat) (l : List Notification) :
    ((mark_first nid now l).1).map Notification.id = l.map Notification.id := by
  induction l with
  | nil => rfl
  | cons n rest ih =>
    by_cases h : n.id = nid
    · by_cases hr : n.read
      · rw [mark_first_cons_found_read nid now n rest h hr]
      · rw [mark_first_cons_found_unread nid now n rest h (Bool.not_eq_true _ |>.mp hr)]
        rfl
    · rw [mark_first_cons_other nid now n rest h]
      simp only [List.map_cons, ih]

lemma mem_of_map_id_eq {l1 l2 : List Notification}
    (h : l2.map Notification.id = l1.map Notification.id) {a : Notification}
    (ha : a ∈ l2) : ∃ b ∈ l1, b.id = a.id := by
  have : a.id ∈ l1.map Notification.id := by
    rw [← h]
    exact List.mem_map.mpr ⟨a, ha, rfl⟩
  rcases List.mem_map.mp this with ⟨b, hb, hbid⟩
  exact ⟨b, hb, hbid⟩

lemma storeInv_of_ids (s s' : ServiceState)
    (hcnt : s.notification_id_counter ≤ s'.notification_id_counter)
    (hids : ∀ u, ∀ a ∈ s'.notifications u, ∃ b ∈ s.notifications u, b.id = a.id)
    (h : StoreInv s) : StoreInv s' := by
  constructor
  · intro u a ha
    rcases hids u a ha with ⟨b, hb, hid⟩
    have := h.1 u b hb
    omega
  · intro u v huv a ha b hb
    rcases hids u a ha with ⟨a0, ha0, hida⟩
    rcases hids v b hb with ⟨b0, hb0, hidb⟩
    rw [← hida, ← hidb]
    exact h.2 u v huv a0 ha0 b0 hb0

lemma mem_create_coll (s : ServiceState) (u : Nat) (m lv : String) (t : Option String)
    (c : Option NotificationCategory) (p : NotificationPriority)
    (d : List (String × String)) (e : Option Nat) (now : Nat) (w : Nat)
    (a : Notification) (ha : a ∈ (create_notification s u m lv t c p d e now).2.1.notifications w) :
    a ∈ s.notifications w ∨ (w = u ∧ a = (create_notification s u m lv t c p d e now).1) := by
  by_cases hw : w = u
  · subst hw
    rw [create_coll] at ha
    rcases List.mem_append.mp ha with hh | hh
    · exact Or.inl (List.mem_of_mem_filter hh)
    · exact Or.inr ⟨rfl, List.mem_singleton.mp hh⟩
  · rw [create_coll_other s u m lv t c p d e now w hw] at ha
    exact Or.inl ha

lemma storeInv_exec (s : ServiceState) (op : Op) (h : StoreInv s) :
    StoreInv (execOp s op) := by
  cases op with
  | createOp u m lv t c p d e now =>
    show StoreInv (create_notification s u m lv t c p d e now).2.1
    constructor
    · intro w a ha
      rw [create_counter]
      rcases mem_create_coll s u m lv t c p d e now w a ha with hh | ⟨_, hh⟩
      · have := h.1 w a hh
        omega
      · rw [hh, create_id]
        omega
    · intro w v hwv a ha b hb
      rcases mem_create_coll s u m lv t c p d e now w a ha with hha | ⟨hw, hha⟩ <;>
        rcases mem_create_coll s u m lv t c p d e now v b hb with hhb | ⟨hv, hhb⟩
      · exact h.2 w v hwv a hha b hhb
      · have := h.1 w a hha
        rw [hhb, create_id]
        omega
      · have := h.1 v b hhb
        rw [hha, create_id]
        omega
      · exact absurd (hw.trans hv.symm) hwv
  | deleteOp u nid =>
    refine storeInv_of_ids s _ (le_refl _) ?_ h
    intro w a ha
    simp only [execOp] at ha
    by_cases hw : w = u
    · subst hw
      rw [show (delete_notification s w nid).1.notifications w =
          (s.notifications w).filter (fun n => n.id ≠ nid) from updateFn_same _ _ _] at ha
      exact ⟨a, List.mem_of_mem_filter ha, rfl⟩
    · rw [delete_coll_other s u nid w hw] at ha
      exact ⟨a, ha, rfl⟩
  | markReadOp u nid now =>
    refine storeInv_of_ids s _ (le_refl _) ?_ h
    intro w a ha
    simp only [execOp] at ha
    by_cases hw : w = u
    · subst hw
      rw [mark_as_read_coll] at ha
      exact mem_of_map_id_eq (mark_first_map_id nid now (s.notifications w)) ha
    · rw [show (mark_as_read s u nid now).1.notifications w = s.notifications w from
        updateFn_other _ _ _ _ hw] at ha
      exact ⟨a, ha, rfl⟩
  | markAllReadOp u c now =>
    refine storeInv_of_ids s _ (le_refl _) ?_ h
    intro w a ha
    simp only [execOp] at ha
    by_cases hw : w = u
    · subst hw
      rw [show (mark_all_as_read s w c now).1.notifications w =
          (s.notifications w).map (fun n =>
            if mark_all_cond c n then { n with read := true, read_at := some now }
            else n) from updateFn_same _ _ _] at ha
      rcases List.mem_map.mp ha with ⟨b, hb, hba⟩
      refine ⟨b, hb, ?_⟩
      rw [← hba]
      by_cases hc : mark_all_cond c b
      · rw [if_pos hc]
      · rw [if_neg hc]
    · rw [mark_all_coll_other s u c now w hw] at ha
      exact ⟨a, ha, rfl⟩

lemma storeInv_runOps (ops : List Op) :
    ∀ s : ServiceState, StoreInv s → StoreInv (runOps s ops) := by
  induction ops with
  | nil => intro s h; exact h
  | cons op ops ih => intro s h; exact ih _ (storeInv_exec s op h)

lemma storeInv_init : StoreInv initState := by
  constructor
  · intro u a ha
    simp [initState] at ha
  · intro u v _ a ha
    simp [initState] at ha

lemma storeInv_reachable (s : ServiceState) (h : Reachable s) : StoreInv s := by
  rcases h with ⟨ops, hops⟩
  rw [← hops]
  exact storeInv_runOps ops initState storeInv_init

/-- C7: in every reachable store state, `mark_as_read` called by user `u1` on
an id that belongs to a different user `u2` returns `false` and leaves the
whole store — in particular `u2`'s collection — unchanged; and every
store-mutating operation invoked for `u1` leaves every other user's
collection unchanged. -/
theorem C7_partition_isolation (s : ServiceState) (u1 u2 n now : Nat)
    (hs : Reachable s) (hne : u1 ≠ u2)
    (hn : n ∈ (s.notifications u2).map Notification.id) :
    ((mark_as_read s u1 n now).2 = false) ∧
    ((mark_as_read s u1 n now).1 = s) ∧
    (∀ v, v ≠ u1 → ∀ (message level : String) (title : Option String)
        (category : Option NotificationCategory) (priority : NotificationPriority)
        (data : List (String × String)) (expires_at : Option Nat) (t nid : Nat),
      ((create_notification s u1 message level title category priority data expires_at
          t).2.1.notifications v = s.notifications v) ∧
      ((mark_as_read s u1 nid t).1.notifications v = s.notifications v) ∧
      ((mark_all_as_read s u1 category t).1.notifications v = s.notifications v) ∧
      ((delete_notification s u1 nid).1.notifications v = s.notifications v)) := by
  have hinv := storeInv_reachable s hs
  have hnotin : ∀ y ∈ s.notifications u1, y.id ≠ n := by
    intro y hy hid
    rcases List.mem_map.mp hn with ⟨b, hb, hbid⟩
    exact (hinv.2 u1 u2 hne y hy b hb) (hid.trans hbid.symm)
  have hm := mark_as_read_unchanged s u1 n now hnotin
  refine ⟨by rw [hm], by rw [hm], ?_⟩
  intro v hv message level title category priority data expires_at t nid
  exact ⟨create_coll_other s u1 message level title category priority data expires_at t
      v hv,
    updateFn_other _ _ _ _ hv,
    mark_all_coll_other s u1 category t v hv,
    delete_coll_other s u1 nid v hv⟩

/-- C7 witness: the reachable store in which user 2 owns notification 1. -/
theorem C7_partition_isolation_witness :
    (Reachable (runOps initState [Op.createOp 2 "m" "info" none none
      NotificationPriority.medium [] none 0])) ∧
    ((1 : Nat) ≠ 2) ∧
    (1 ∈ ((runOps initState [Op.createOp 2 "m" "info" none none
      NotificationPriority.medium [] none 0]).notifications 2).map Notification.id) ∧
    (((mark_as_read (runOps initState [Op.createOp 2 "m" "info" none none
        NotificationPriority.medium [] none 0]) 1 1 7).2 = false) ∧
    ((mark_as_read (runOps initState [Op.createOp 2 "m" "info" none none
        NotificationPriority.medium [] none 0]) 1 1 7).1 =
      runOps initState [Op.createOp 2 "m" "info" none none
        NotificationPriority.medium [] none 0]) ∧
    (∀ v, v ≠ 1 → ∀ (message level : String) (title : Option String)
        (category : Option NotificationCategory) (priority : NotificationPriority)
        (data : List (String × String)) (expires_at : Option Nat) (t nid : Nat),
      ((create_notification (runOps initState [Op.createOp 2 "m" "info" none none
          NotificationPriority.medium [] none 0]) 1 message level title category priority
          data expires_at t).2.1.notifications v =
        (runOps initState [Op.createOp 2 "m" "info" none none
          NotificationPriority.medium [] none 0]).notifications v) ∧
      ((mark_as_read (runOps initState [Op.createOp 2 "m" "info" none none
          NotificationPriority.medium [] none 0]) 1 nid t).1.notifications v =
        (runOps initState [Op.createOp 2 "m" "info" none none
          NotificationPriority.medium [] none 0]).notifications v) ∧
      ((mark_all_as_read (runOps initState [Op.createOp 2 "m" "info" none none
          NotificationPriority.medium [] none 0]) 1 category t).1.notifications v =
        (runOps initState [Op.createOp 2 "m" "info" none none
          NotificationPriority.medium [] none 0]).notifications v) ∧
      ((delete_notification (runOps initState [Op.createOp 2 "m" "info" none none
          NotificationPriority.medium [] none 0]) 1 nid).1.notifications v =
        (runOps initState [Op.createOp 2 "m" "info" none none
          NotificationPriority.medium [] none 0]).notifications v))) :=
  ⟨⟨[Op.createOp 2 "m" "info" none none NotificationPriority.medium [] none 0], rfl⟩,
    by decide, by decide,
    C7_partition_isolation _ 1 2 1 7
      ⟨[Op.createOp 2 "m" "info" none none NotificationPriority.medium [] none 0], rfl⟩
      (by decide) (by decide)⟩

lemma mem_of_mem_sorted_take {x : Notification} {l : List Notification} {limit : Nat} :
    x ∈ (l.mergeSort sort_le).take limit → x ∈ l := fun h =>
  (List.mergeSort_perm l sort_le).mem_iff.mp (List.mem_of_mem_take h)

lemma mem_of_mem_get_recent (s : ServiceState) (u limit : Nat)
    (category : Option NotificationCategory) (unread_only : Bool)
    (pf : Option (List NotificationPriority)) (x : Notification)
    (hx : x ∈ get_recent_notifications s u limit category unread_only pf) :
    x ∈ s.notifications u := by
  simp only [get_recent_notifications] at hx
  rcases category with _ | c <;> rcases pf with _ | ps <;> cases unread_only <;>
    simp only [Bool.false_eq_true, if_false, if_true, reduceIte] at hx
  · exact mem_of_mem_sorted_take hx
  · exact List.mem_of_mem_filter (mem_of_mem_sorted_take hx)
  · by_cases hps : ps = [] <;> simp only [hps, if_pos, if_neg, reduceIte] at hx
    · exact mem_of_mem_sorted_take hx
    · exact List.mem_of_mem_filter (mem_of_mem_sorted_take hx)
  · by_cases hps : ps = [] <;> simp only [hps, if_pos, if_neg, reduceIte] at hx
    · exact List.mem_of_mem_filter (mem_of_mem_sorted_take hx)
    · exact List.mem_of_mem_filter (List.mem_of_mem_filter (mem_of_mem_sorted_take hx))
  · exact List.mem_of_mem_filter (mem_of_mem_sorted_take hx)
  · exact List.mem_of_mem_filter (List.mem_of_mem_filter (mem_of_mem_sorted_take hx))
  · by_cases hps : ps = [] <;> simp only [hps, if_pos, if_neg, reduceIte] at hx
    · exact List.mem_of_mem_filter (mem_of_mem_sorted_take hx)
    · exact List.mem_of_mem_filter (List.mem_of_mem_filter (mem_of_mem_sorted_take hx))
  · by_cases hps : ps = [] <;> simp only [hps, if_pos, if_neg, reduceIte] at hx
    · exact List.mem_of_mem_filter (List.mem_of_mem_filter (mem_of_mem_sorted_take hx))
    · exact List.mem_of_mem_filter (List.mem_of_mem_filter
        (List.mem_of_mem_filter (mem_of_mem_sorted_take hx)))

/-- C2 counterexample: a store holding a notification whose `expires_at` is
the instant 1 (already passed at any later instant — the read operations
consult no clock at all).  `get_recent_notifications` still returns it and
`get_unread_count` / `get_notification_stats` still count it, because only
`create` prunes. -/
theorem C2_counterexample :
    (((create_notification initState 1 "m" "info" none none NotificationPriority.medium
        [] (some 1) 0).2.1.notifications 1).map Notification.expires_at = [some 1]) ∧
    ((get_recent_notifications (create_notification initState 1 "m" "info" none none
        NotificationPriority.medium [] (some 1) 0).2.1 1 50 none false none).map
      Notification.expires_at = [some 1]) ∧
    (get_unread_count (create_notification initState 1 "m" "info" none none
        NotificationPriority.medium [] (some 1) 0).2.1 1 none none = 1) ∧
    ((get_notification_stats (create_notification initState 1 "m" "info" none none
        NotificationPriority.medium [] (some 1) 0).2.1 1).total = 1) := by
  refine ⟨rfl, ?_, rfl, rfl⟩
  have hc : (create_notification initState 1 "m" "info" none none
      NotificationPriority.medium [] (some 1) 0).2.1.notifications 1 =
      [(create_notification initState 1 "m" "info" none none
        NotificationPriority.medium [] (some 1) 0).1] := rfl
  simp only [get_recent_notifications, hc, Bool.false_eq_true, if_false,
    List.mergeSort_singleton]
  rfl

/-- C2 (amended): expiry is enforced only by the lazy pruning inside `create`:
a stored notification whose `expires_at` has passed by the time of the next
`create` for its user is removed from the collection by that call, and from
then on `get_recent_notifications` never returns it (and the counts of
`get_unread_count` / `get_notification_stats`, which range over the
collection, no longer include it); before such a `create`, the read
operations do not filter by expiry. -/
theorem C2_expired_pruned_on_next_create (s : ServiceState) (u : Nat)
    (message level : String) (title : Option String)
    (category : Option NotificationCategory) (priority : NotificationPriority)
    (data : List (String × String)) (expires_at : Option Nat) (now : Nat)
    (n : Notification) (e : Nat) (hs : Reachable s) (hn : n ∈ s.notifications u)
    (he : n.expires_at = some e) (hle : e ≤ now) :
    (n ∉ (create_notification s u message level title category priority data expires_at
        now).2.1.notifications u) ∧
    (∀ (limit : Nat) (cat : Option NotificationCategory) (uo : Bool)
        (pf : Option (List NotificationPriority)),
      n ∉ get_recent_notifications (create_notification s u message level title category
        priority data expires_at now).2.1 u limit cat uo pf) := by
  have hinv := storeInv_reachable s hs
  have hid : n.id < s.notification_id_counter := hinv.1 u n hn
  have h1 : n ∉ (create_notification s u message level title category priority data
      expires_at now).2.1.notifications u := by
    intro hmem
    rw [create_coll] at hmem
    rcases List.mem_append.mp hmem with hh | hh
    · have hkeep := (List.mem_filter.mp hh).2
      rw [not_expired, he] at hkeep
      simp only [decide_eq_true_eq] at hkeep
      omega
    · have := congrArg Notification.id (List.mem_singleton.mp hh)
      rw [create_id] at this
      omega
  refine ⟨h1, ?_⟩
  intro limit cat uo pf hmem
  exact h1 (mem_of_mem_get_recent _ u limit cat uo pf n hmem)

/-- C2 witness: the concrete expired notification of the counterexample store
is pruned by a subsequent `create` at instant 2. -/
theorem C2_expired_pruned_on_next_create_witness :
    (Reachable ((create_notification initState 1 "m" "info" none none
      NotificationPriority.medium [] (some 1) 0).2.1)) ∧
    ((create_notification initState 1 "m" "info" none none NotificationPriority.medium
      [] (some 1) 0).1 ∈ ((create_notification initState 1 "m" "info" none none
      NotificationPriority.medium [] (some 1) 0).2.1).notifications 1) ∧
    ((create_notification initState 1 "m" "info" none none NotificationPriority.medium
      [] (some 1) 0).1.expires_at = some 1) ∧
    ((1 : Nat) ≤ 2) ∧
    (((create_notification initState 1 "m" "info" none none NotificationPriority.medium
        [] (some 1) 0).1 ∉
      (create_notification ((create_notification initState 1 "m" "info" none none
          NotificationPriority.medium [] (some 1) 0).2.1) 1 "next" "info" none none
        NotificationPriority.medium [] none 2).2.1.notifications 1) ∧
    (∀ (limit : Nat) (cat : Option NotificationCategory) (uo : Bool)
        (pf : Option (List NotificationPriority)),
      (create_notification initState 1 "m" "info" none none NotificationPriority.medium
        [] (some 1) 0).1 ∉
        get_recent_notifications (create_notification ((create_notification initState 1
            "m" "info" none none NotificationPriority.medium [] (some 1) 0).2.1) 1
          "next" "info" none none NotificationPriority.medium [] none 2).2.1 1 limit cat
          uo pf)) :=
  ⟨⟨[Op.createOp 1 "m" "info" none none NotificationPriority.medium [] (some 1) 0], rfl⟩,
    by decide, rfl, by decide,
    C2_expired_pruned_on_next_create _ 1 "next" "info" none none
      NotificationPriority.medium [] none 2 _ 1
      ⟨[Op.createOp 1 "m" "info" none none NotificationPriority.medium [] (some 1) 0],
        rfl⟩
      (by decide) rfl (by decide)⟩

/-- Modelled from the spec: the conjunction of the supplied `list` filters —
category equality, read flag false when `unread_only`, priority membership in
the supplied priority set.  Used to compare the source implementation with
the claim. -/
def claimed_filter (category : Option NotificationCategory) (unread_only : Bool)
    (priority_filter : Option (List NotificationPriority)) (n : Notification) : Bool :=
  (match category with
   | some c => decide (n.category = c.value)
   | none => true) &&
  ((if unread_only then !n.read else true) &&
   (match priority_filter with
    | some ps => decide (n.priority ∈ ps.map NotificationPriority.value)
    | none => true))

/-- Modelled from the spec: the claimed result order — priority descending
(`urgent` > `high` > `medium` > `low`, i.e. by descending enumeration rank)
with creation timestamp descending as tie-break. -/
def claimed_order (a b : Notification) : Prop :=
  priority_order_get b.priority < priority_order_get a.priority ∨
  (priority_order_get a.priority = priority_order_get b.priority ∧
    b.timestamp ≤ a.timestamp)

lemma sort_le_iff (a b : Notification) : sort_le a b = true ↔ claimed_order a b := by
  simp [sort_le, claimed_order]

lemma sort_le_trans : ∀ a b c : Notification,
    sort_le a b = true → sort_le b c = true → sort_le a c = true := by
  intro a b c hab hbc
  simp [sort_le] at hab hbc ⊢
  omega

lemma sort_le_total : ∀ a b : Notification, (sort_le a b || sort_le b a) = true := by
  intro a b
  simp [sort_le]
  omega

lemma filter_stage_category (l : List Notification)
    (category : Option NotificationCategory) :
    (match category with
     | some c => l.filter (fun (n : Notification) => n.category = c.value)
     | none => l) =
      l.filter (fun n =>
        match category with
        | some c => decide (n.category = c.value)
        | none => true) := by
  cases category with
  | none => exact (List.filter_true l).symm
  | some c => rfl

lemma filter_stage_unread (l : List Notification) (uo : Bool) :
    (if uo then l.filter (fun (n : Notification) => !n.read) else l) =
      l.filter (fun n => if uo then !n.read else true) := by
  cases uo with
  | false => simp
  | true => simp

lemma bool_and_rot (x y z : Bool) : ((z && y) && x) = (x && (y && z)) := by
  cases x <;> cases y <;> cases z <;> rfl

lemma bool_and_pair (x y : Bool) : (y && x) = (x && (y && true)) := by
  cases x <;> cases y <;> rfl

lemma get_recent_eq (s : ServiceState) (u limit : Nat)
    (category : Option NotificationCategory) (uo : Bool)
    (pf : Option (List NotificationPriority)) (hpf : pf ≠ some []) :
    get_recent_notifications s u limit category uo pf =
      (((s.notifications u).filter (claimed_filter category uo pf)).mergeSort
        sort_le).take limit := by
  rcases pf with _ | ps
  · simp only [get_recent_notifications]
    rw [filter_stage_category, filter_stage_unread, List.filter_filter]
    have hcong : (s.notifications u).filter (fun a =>
        ((if uo then !a.read else true) &&
          (match category with
           | some c => decide (a.category = c.value)
           | none => true))) =
        (s.notifications u).filter
          (claimed_filter category uo none) := by
      refine List.filter_congr ?_
      intro a _
      exact bool_and_pair _ _
    rw [hcong]
  · have hps : ps ≠ [] := by
      intro h
      exact hpf (by rw [h])
    simp only [get_recent_notifications, if_neg hps]
    rw [filter_stage_category, filter_stage_unread, List.filter_filter,
      List.filter_filter]
    have hcong : (s.notifications u).filter (fun a =>
        ((decide (a.priority ∈ ps.map NotificationPriority.value) &&
          (if uo then !a.read else true)) &&
          (match category with
           | some c => decide (a.category = c.value)
           | none => true))) =
        (s.notifications u).filter (claimed_filter category uo (some ps)) := by
      refine List.filter_congr ?_
      intro a _
      exact bool_and_rot _ _ _
    rw [hcong]

/-- C5 counterexample: with a supplied — but empty — priority set, the claim
requires the result to be the (empty) set of notifications whose priority
lies in that set; the source's `if priority_filter:` guard treats the empty
list like `None`, so the call returns the user's notification anyway. -/
theorem C5_counterexample :
    ((get_recent_notifications (create_notification initState 1 "m" "info" none none
        NotificationPriority.medium [] none 0).2.1 1 50 none false (some [])).length
      = 1) ∧
    (((create_notification initState 1 "m" "info" none none NotificationPriority.medium
        [] none 0).2.1.notifications 1).filter (claimed_filter none false (some []))
      = []) := by
  constructor
  · have hc : (create_notification initState 1 "m" "info" none none
        NotificationPriority.medium [] none 0).2.1.notifications 1 =
        [(create_notification initState 1 "m" "info" none none
          NotificationPriority.medium [] none 0).1] := rfl
    simp only [get_recent_notifications, hc, Bool.false_eq_true, if_false, reduceIte,
      List.mergeSort_singleton]
    rfl
  · rfl

/-- C5 (amended): for every combination of the optional filters in which the
supplied priority set, if any, is non-empty, `get_recent_notifications`
returns the first `limit` elements of a permutation of exactly those of the
user's notifications satisfying the conjunction of the supplied filters,
sorted by priority descending with creation timestamp descending as
tie-break; a supplied empty priority set is instead treated as no priority
filter.  The call does not mutate the store (its embedding is a pure
function of the state). -/
theorem C5_get_recent_filters_sorts_truncates (s : ServiceState) (u limit : Nat)
    (category : Option NotificationCategory) (unread_only : Bool)
    (pf : Option (List NotificationPriority)) (hpf : pf ≠ some []) :
    ∃ l : List Notification,
      l.Perm ((s.notifications u).filter (claimed_filter category unread_only pf)) ∧
      List.Sorted claimed_order l ∧
      get_recent_notifications s u limit category unread_only pf = l.take limit := by
  refine ⟨((s.notifications u).filter
      (claimed_filter category unread_only pf)).mergeSort sort_le,
    List.mergeSort_perm _ sort_le, ?_,
    get_recent_eq s u limit category unread_only pf hpf⟩
  have hp := List.sorted_mergeSort sort_le_trans sort_le_total
    ((s.notifications u).filter (claimed_filter category unread_only pf))
  exact hp.imp fun hab => (sort_le_iff _ _).mp hab

/-- C5 witness: a concrete call with a non-empty priority set. -/
theorem C5_get_recent_filters_sorts_truncates_witness :
    ((some [NotificationPriority.medium] : Option (List NotificationPriority))
      ≠ some []) ∧
    (∃ l : List Notification,
      l.Perm ((((create_notification initState 1 "m" "info" none none
          NotificationPriority.medium [] none 0).2.1).notifications 1).filter
        (claimed_filter none false (some [NotificationPriority.medium]))) ∧
      List.Sorted claimed_order l ∧
      get_recent_notifications (create_notification initState 1 "m" "info" none none
          NotificationPriority.medium [] none 0).2.1 1 50 none false
          (some [NotificationPriority.medium]) = l.take 50) :=
  ⟨by decide,
    C5_get_recent_filters_sorts_truncates _ 1 50 none false
      (some [NotificationPriority.medium]) (by decide)⟩
